import Mathlib

/-!
# Verification of `BT::RosActionNode` (BehaviorTree.ROS2, `bt_action_node.hpp`)

A shallow embedding of the template class `BT::RosActionNode<ActionT>` from
`src/include/behaviortree_ros2/bt_action_node.hpp`.  The node adapts a ROS 2
action client to a tick-driven behavior-tree leaf.

Modelling choices:

* Machine state (`NodeState`) mirrors the C++ member variables of the class,
  one field per member, with the action client represented by an optional
  `Client` value carrying the server name it was created for and a creation
  counter (so that "a new client was created" is observable).
* Everything the outside world does during one call of `tick()` is an `Env`:
  the value read from the input port, the outcome of the bind-time
  reachability probe (`wait_for_action_server`), the outcome of the user's
  `setGoal`, the monotonic clock reading `node_->now()`, the feedback events
  delivered by `rclcpp::spin_some`, the result delivered by the result
  callback, and the state of the goal-response future observed by
  `rclcpp::spin_until_future_complete` (`none` = not yet completed,
  `some h` = completed with goal-handle pointer `h`, where `h = none` is the
  null pointer of a rejected goal).
* The user-supplied virtual methods are a record of functions `User`
  (`onFailure`, `onResultReceived`, `onFeeback` — the source's spelling).
* C++ exceptions become an `Except TickError` result; since a C++ throw
  leaves already-performed member mutations in place, every function returns
  the mutated state and the accumulated event trace alongside the
  `Except` value.
* The observable interactions with the transport and the user code are
  recorded in a trace of `Event`s: client creation, reachability probe,
  goal submission (`async_send_goal`), the invocations of the three user
  callbacks together with their return values, and the goal handle passed to
  `async_cancel_goal`.
* Times are integers (nanoseconds of the node clock); `server_timeout_`
  is kept in the same unit, matching the `rclcpp::Duration` comparison
  `(node_->now() - time_goal_sent_) > timeout` of line 348.
-/

deriving instance DecidableEq for Except

namespace BTRos

/-- `BT::NodeStatus` of behaviortree_cpp v4 (values used by this header). -/
inductive NodeStatus
  | idle
  | running
  | success
  | failure
  | skipped
deriving DecidableEq

/-- `enum ActionNodeErrorCode` (header lines 26-34). -/
inductive ActionNodeErrorCode
  | SERVER_UNREACHABLE
  | SEND_GOAL_TIMEOUT
  | GOAL_REJECTED_BY_SERVER
  | ACTION_ABORTED
  | ACTION_CANCELLED
  | INVALID_GOAL
deriving DecidableEq

/-- `rclcpp_action::ResultCode`; `UNKNOWN` is the zero value produced by
`result_ = {}`. -/
inductive ResultCode
  | UNKNOWN
  | SUCCEEDED
  | CANCELED
  | ABORTED
deriving DecidableEq

/-- `ClientGoalHandle::WrappedResult`: the result code plus an abstract
payload.  Value-initialisation (`result_ = {}`) gives code `UNKNOWN`. -/
structure WrappedResult where
  code : ResultCode := .UNKNOWN
  payload : Nat := 0
deriving DecidableEq

/-- An action client handle: the server name it was created for plus a
creation counter distinguishing successive clients of one node. -/
structure Client where
  server_name : String
  id : Nat
deriving DecidableEq

/-- Observable interactions of one node with the transport and the user
code. `asyncCancelGoal` records the goal-handle pointer passed to
`action_client_->async_cancel_goal` (`none` = null pointer). -/
inductive Event
  | clientCreated (server_name : String) (id : Nat)
  | probe (server_name : String) (found : Bool)
  | sendGoal
  | onFailureCalled (code : ActionNodeErrorCode) (ret : NodeStatus)
  | onResultReceivedCalled (r : WrappedResult) (ret : NodeStatus)
  | onFeebackCalled (f : Nat) (ret : NodeStatus)
  | asyncCancelGoal (handle : Option Nat)
deriving DecidableEq

/-- The C++ exceptions this header can throw from `tick()`. -/
inductive TickError
  | runtimeErrorEmptyServerName
  | logicErrorCallbackStatus
  | logicErrorFeedbackIdle
  | runtimeErrorGoalRejected
deriving DecidableEq

/-- Member variables of `RosActionNode` (header lines 133-149) plus the
node status maintained by the `TreeNode` base class and a client-creation
counter making client identity observable. -/
structure NodeState where
  status : NodeStatus
  action_client_ : Option Client
  prev_server_name_ : String
  server_name_may_change_ : Bool
  server_timeout_ : Int
  future_goal_handle_ : Bool
  goal_handle_ : Option Nat
  time_goal_sent_ : Int
  on_feedback_state_change_ : NodeStatus
  goal_received_ : Bool
  result_ : WrappedResult
  clients_created : Nat
deriving DecidableEq

/-- Everything the environment supplies during one `tick()` call. -/
structure Env where
  port_server_name : String
  probe_ok : Bool
  set_goal_ok : Bool
  now : Int
  feedbacks : List Nat
  result_arrival : Option WrappedResult
  acceptance : Option (Option Nat)

/-- The user-overridden virtual methods. `setGoal` is represented by
`Env.set_goal_ok` since only its boolean outcome is read by `tick`. -/
structure User where
  onFailure : ActionNodeErrorCode → NodeStatus
  onResultReceived : WrappedResult → NodeStatus
  onFeeback : Nat → NodeStatus

/-- The `CheckStatus` lambda of `tick()` (lines 266-273): any value other
than SUCCESS or FAILURE throws a `std::logic_error`. -/
def CheckStatus (status : NodeStatus) : Except TickError NodeStatus :=
  if status ≠ .success ∧ status ≠ .failure then .error .logicErrorCallbackStatus
  else .ok status

/-- `RosActionNode::createClient` (lines 227-246): throws on an empty name,
creates a fresh client (replacing the held one and recording the name in
`prev_server_name_`), probes reachability for `server_timeout_`, logs on
failure and returns whether the server was found. -/
def createClient (e : Env) (s : NodeState) (server_name : String) :
    Except TickError Bool × NodeState × List Event :=
  if server_name = "" then
    (.error .runtimeErrorEmptyServerName, s, [])
  else
    (.ok e.probe_ok,
     { s with
        action_client_ := some { server_name := server_name, id := s.clients_created },
        clients_created := s.clients_created + 1,
        prev_server_name_ := server_name },
     [.clientCreated server_name s.clients_created,
      .probe server_name e.probe_ok])

/-- The client re-creation block at the top of `tick()` (lines 255-263).
Note that the boolean returned by `createClient` is discarded there. -/
def rebind (e : Env) (s : NodeState) :
    Except TickError Unit × NodeState × List Event :=
  if s.action_client_ = none ∨ (s.status = .idle ∧ s.server_name_may_change_ = true) then
    if s.prev_server_name_ ≠ e.port_server_name then
      (Except.map (fun _ => ()) (createClient e s e.port_server_name).1,
       (createClient e s e.port_server_name).2.1,
       (createClient e s e.port_server_name).2.2)
    else (.ok (), s, [])
  else (.ok (), s, [])

/-- `RosActionNode::cancelGoal` (lines 403-414): passes the current
`goal_handle_` to `async_cancel_goal` and waits (bounded) for the reply;
no member variable is modified. -/
def cancelGoal (s : NodeState) : NodeState × List Event :=
  (s, [.asyncCancelGoal s.goal_handle_])

/-- The feedback callbacks run by `rclcpp::spin_some` (registered at lines
295-305): each event stores the user return value in
`on_feedback_state_change_` and throws a `std::logic_error` if that value is
IDLE. -/
def spinFeedbacks (u : User) : List Nat → NodeState →
    Except TickError Unit × NodeState × List Event
  | [], s => (.ok (), s, [])
  | f :: rest, s =>
    if u.onFeeback f = .idle then
      (.error .logicErrorFeedbackIdle,
       { s with on_feedback_state_change_ := u.onFeeback f },
       [.onFeebackCalled f (u.onFeeback f)])
    else
      ((spinFeedbacks u rest { s with on_feedback_state_change_ := u.onFeeback f }).1,
       (spinFeedbacks u rest { s with on_feedback_state_change_ := u.onFeeback f }).2.1,
       .onFeebackCalled f (u.onFeeback f) ::
         (spinFeedbacks u rest { s with on_feedback_state_change_ := u.onFeeback f }).2.2)

/-- The result callback run by `rclcpp::spin_some` (registered at lines
307-313): stores the arrived result in `result_`. -/
def applyResult (e : Env) (s : NodeState) : NodeState :=
  match e.result_arrival with
  | some r => { s with result_ := r }
  | none => s

/-- SECOND and THIRD cases of `tick()` plus the final fall-through (lines
369-391): a non-RUNNING `on_feedback_state_change_` cancels the goal and is
returned directly (no `CheckStatus`); otherwise an arrived result is
dispatched by its code through `CheckStatus`; otherwise RUNNING. -/
def activePhase (u : User) (s : NodeState) :
    Except TickError NodeStatus × NodeState × List Event :=
  if s.on_feedback_state_change_ ≠ .running then
    ((.ok s.on_feedback_state_change_, cancelGoal s) :
      Except TickError NodeStatus × NodeState × List Event)
  else if s.result_.code ≠ .UNKNOWN then
    if s.result_.code = .ABORTED then
      (CheckStatus (u.onFailure .ACTION_ABORTED), s,
       [.onFailureCalled .ACTION_ABORTED (u.onFailure .ACTION_ABORTED)])
    else if s.result_.code = .CANCELED then
      (CheckStatus (u.onFailure .ACTION_CANCELLED), s,
       [.onFailureCalled .ACTION_CANCELLED (u.onFailure .ACTION_CANCELLED)])
    else
      (CheckStatus (u.onResultReceived s.result_), s,
       [.onResultReceivedCalled s.result_ (u.onResultReceived s.result_)])
  else (.ok .running, s, [])

/-- Lines 344-356: goal future still pending; it either times out (strict
comparison `now - time_goal_sent_ > server_timeout_`, resolving through
`onFailure(SEND_GOAL_TIMEOUT)`) or leaves the node RUNNING. -/
def pendingGoal (u : User) (e : Env) (s : NodeState) :
    Except TickError NodeStatus × NodeState × List Event :=
  if e.now - s.time_goal_sent_ > s.server_timeout_ then
    (CheckStatus (u.onFailure .SEND_GOAL_TIMEOUT), s,
     [.onFailureCalled .SEND_GOAL_TIMEOUT (u.onFailure .SEND_GOAL_TIMEOUT)])
  else (.ok .running, s, [])

/-- Lines 358-366: mark the goal received, store the goal handle, drop the
future. -/
def received (s : NodeState) (h : Option Nat) : NodeState :=
  { s with goal_received_ := true, goal_handle_ := h, future_goal_handle_ := false }

/-- Lines 358-366 continued: a completed goal future with a null handle
throws `std::runtime_error`; otherwise the active-phase checks run in the
same tick. -/
def acceptGoal (u : User) (s : NodeState) (h : Option Nat) :
    Except TickError NodeStatus × NodeState × List Event :=
  if h = none then
    (.error .runtimeErrorGoalRejected, received s h, [])
  else activePhase u (received s h)

/-- FIRST case of `tick()` (lines 338-367) followed by the SECOND and THIRD
cases, entered after `spin_some`: while the goal is not yet received the
goal-response future is inspected; once received (possibly in this very
tick) the active-phase checks run. -/
def afterSpin (u : User) (e : Env) (s : NodeState) :
    Except TickError NodeStatus × NodeState × List Event :=
  if s.goal_received_ = false then
    match e.acceptance with
    | none => pendingGoal u e s
    | some h => acceptGoal u s h
  else activePhase u s

/-- The `status() == RUNNING` branch of `tick()` (lines 334-390):
`spin_some` delivers pending feedback and result callbacks, then the
acceptance / feedback-abort / result checks run. -/
def tickRunning (u : User) (e : Env) (s : NodeState) :
    Except TickError NodeStatus × NodeState × List Event :=
  match spinFeedbacks u e.feedbacks s with
  | (.error err, s1, tr1) => (.error err, s1, tr1)
  | (.ok _, s1, tr1) =>
    ((afterSpin u e (applyResult e s1)).1,
     (afterSpin u e (applyResult e s1)).2.1,
     tr1 ++ (afterSpin u e (applyResult e s1)).2.2)

/-- The `status() == IDLE` branch of `tick()` (lines 276-331): set RUNNING,
reset the per-activation members (`goal_handle_` is notably absent from the
reset list), ask the user for a goal — a declined goal resolves through
`onFailure(INVALID_GOAL)` before anything is sent — otherwise submit the
goal, record the submission time and report RUNNING. -/
def tickIdle (u : User) (e : Env) (s : NodeState) :
    Except TickError NodeStatus × NodeState × List Event :=
  if e.set_goal_ok = false then
    (CheckStatus (u.onFailure .INVALID_GOAL),
     { s with status := .running, goal_received_ := false, future_goal_handle_ := false,
              on_feedback_state_change_ := .running, result_ := {} },
     [.onFailureCalled .INVALID_GOAL (u.onFailure .INVALID_GOAL)])
  else
    (.ok .running,
     { s with status := .running, goal_received_ := false,
              on_feedback_state_change_ := .running, result_ := {},
              future_goal_handle_ := true, time_goal_sent_ := e.now },
     [.sendGoal])

/-- `RosActionNode::tick` (lines 249-392). -/
def tick (u : User) (e : Env) (s : NodeState) :
    Except TickError NodeStatus × NodeState × List Event :=
  match rebind e s with
  | (.error err, s1, tr1) => (.error err, s1, tr1)
  | (.ok _, s1, tr1) =>
    if s1.status = .idle then
      ((tickIdle u e s1).1, (tickIdle u e s1).2.1, tr1 ++ (tickIdle u e s1).2.2)
    else if s1.status = .running then
      ((tickRunning u e s1).1, (tickRunning u e s1).2.1, tr1 ++ (tickRunning u e s1).2.2)
    else (.ok .running, s1, tr1)

/-- `RosActionNode::halt` (lines 394-401): cancel the goal when RUNNING,
otherwise do nothing. -/
def halt (s : NodeState) : NodeState × List Event :=
  if s.status = .running then cancelGoal s else (s, [])

/-- One activation as driven by the host scheduler: tick with successive
environments until the node stops reporting RUNNING (or throws), collecting
the whole event trace.  Running out of environments leaves the activation
still in progress. -/
def runActivation (u : User) : List Env → NodeState →
    NodeState × List Event × Except TickError NodeStatus
  | [], s => (s, [], .ok .running)
  | e :: es, s =>
    if (tick u e s).1 = .ok .running then
      ((runActivation u es (tick u e s).2.1).1,
       (tick u e s).2.2 ++ (runActivation u es (tick u e s).2.1).2.1,
       (runActivation u es (tick u e s).2.1).2.2)
    else ((tick u e s).2.1, (tick u e s).2.2, (tick u e s).1)

/-- Events reporting an invocation of `onFailure` or `onResultReceived`. -/
def isDispatch : Event → Bool
  | .onFailureCalled _ _ => true
  | .onResultReceivedCalled _ _ => true
  | _ => false

/-- Number of `onFailure` / `onResultReceived` invocations in a trace. -/
def countDispatch (tr : List Event) : Nat := (tr.filter isDispatch).length

/-- Events reporting client creation or a reachability probe. -/
def isBindEvent : Event → Bool
  | .clientCreated _ _ => true
  | .probe _ _ => true
  | _ => false

/-- Number of client-creation / probe events in a trace. -/
def countBind (tr : List Event) : Nat := (tr.filter isBindEvent).length

/-- Node state after the constructor ran with a static server name (the
constructor called `createClient` once, discarding its boolean result). -/
def mkStatic (name : String) (timeout : Int) : NodeState :=
  { status := .idle
    action_client_ := some { server_name := name, id := 0 }
    prev_server_name_ := name
    server_name_may_change_ := false
    server_timeout_ := timeout
    future_goal_handle_ := false
    goal_handle_ := none
    time_goal_sent_ := 0
    on_feedback_state_change_ := .idle
    goal_received_ := false
    result_ := {}
    clients_created := 1 }

/-- Node state after the constructor ran with a blackboard-pointer server
name: no client yet, `server_name_may_change_` set, `createClient` deferred
to the first `tick()`. -/
def mkDynamic (timeout : Int) : NodeState :=
  { status := .idle
    action_client_ := none
    prev_server_name_ := ""
    server_name_may_change_ := true
    server_timeout_ := timeout
    future_goal_handle_ := false
    goal_handle_ := none
    time_goal_sent_ := 0
    on_feedback_state_change_ := .idle
    goal_received_ := false
    result_ := {}
    clients_created := 0 }

/-- A well-behaved user: default `onFailure`, SUCCESS results, RUNNING
feedback. -/
def uDflt : User :=
  { onFailure := fun _ => .failure
    onResultReceived := fun _ => .success
    onFeeback := fun _ => .running }

/-- A baseline environment: reachable server, goal granted, nothing
delivered. -/
def env0 : Env :=
  { port_server_name := "srv"
    probe_ok := true
    set_goal_ok := true
    now := 0
    feedbacks := []
    result_arrival := none
    acceptance := none }

/-! ## Helper lemmas about traces and the building blocks of `tick` -/

theorem countDispatch_append (a b : List Event) :
    countDispatch (a ++ b) = countDispatch a + countDispatch b := by
  simp [countDispatch, List.filter_append]

theorem countBind_append (a b : List Event) :
    countBind (a ++ b) = countBind a + countBind b := by
  simp [countBind, List.filter_append]

theorem CheckStatus_ne_ok_running (st : NodeStatus) :
    CheckStatus st ≠ .ok .running := by
  unfold CheckStatus
  split_ifs with h
  · intro hc
    exact Except.noConfusion hc
  · intro hc
    injection hc with h2
    subst h2
    simp at h

theorem createClient_dispatch (e : Env) (s : NodeState) (n : String) :
    countDispatch (createClient e s n).2.2 = 0 := by
  unfold createClient
  split_ifs <;> simp [countDispatch, isDispatch]

theorem rebind_dispatch (e : Env) (s : NodeState) :
    countDispatch (rebind e s).2.2 = 0 := by
  unfold rebind
  split_ifs
  · exact createClient_dispatch e s e.port_server_name
  · simp [countDispatch]
  · simp [countDispatch]

theorem rebind_status (e : Env) (s : NodeState) :
    (rebind e s).2.1.status = s.status := by
  unfold rebind createClient
  split_ifs <;> rfl

theorem spinFeedbacks_frame (u : User) (fs : List Nat) (s : NodeState) :
    (spinFeedbacks u fs s).2.1.action_client_ = s.action_client_ ∧
    (spinFeedbacks u fs s).2.1.prev_server_name_ = s.prev_server_name_ ∧
    countDispatch (spinFeedbacks u fs s).2.2 = 0 ∧
    countBind (spinFeedbacks u fs s).2.2 = 0 := by
  induction fs generalizing s with
  | nil => simp [spinFeedbacks, countDispatch, countBind]
  | cons f rest ih =>
    by_cases h : u.onFeeback f = .idle
    · simp [spinFeedbacks, h, countDispatch, countBind, isDispatch, isBindEvent]
    · simp only [spinFeedbacks, if_neg h]
      rcases ih { s with on_feedback_state_change_ := u.onFeeback f } with ⟨h1, h2, h3, h4⟩
      refine ⟨by simpa using h1, by simpa using h2, ?_, ?_⟩
      · simpa [countDispatch, isDispatch, List.filter_cons] using h3
      · simpa [countBind, isBindEvent, List.filter_cons] using h4

theorem applyResult_frame (e : Env) (s : NodeState) :
    (applyResult e s).action_client_ = s.action_client_ ∧
    (applyResult e s).prev_server_name_ = s.prev_server_name_ ∧
    (applyResult e s).goal_received_ = s.goal_received_ ∧
    (applyResult e s).time_goal_sent_ = s.time_goal_sent_ ∧
    (applyResult e s).server_timeout_ = s.server_timeout_ ∧
    (applyResult e s).on_feedback_state_change_ = s.on_feedback_state_change_ := by
  unfold applyResult
  cases e.result_arrival <;> simp

theorem activePhase_state (u : User) (s : NodeState) :
    (activePhase u s).2.1 = s := by
  unfold activePhase cancelGoal
  split_ifs <;> rfl

theorem activePhase_dispatch (u : User) (s : NodeState) :
    countDispatch (activePhase u s).2.2 ≤ 1 ∧
    ((activePhase u s).1 = .ok .running → countDispatch (activePhase u s).2.2 = 0) := by
  unfold activePhase cancelGoal
  split_ifs with h1 h2 h3 h4
  · simp [countDispatch, isDispatch]
  · exact ⟨by simp [countDispatch, isDispatch],
      fun hc => absurd hc (CheckStatus_ne_ok_running _)⟩
  · exact ⟨by simp [countDispatch, isDispatch],
      fun hc => absurd hc (CheckStatus_ne_ok_running _)⟩
  · exact ⟨by simp [countDispatch, isDispatch],
      fun hc => absurd hc (CheckStatus_ne_ok_running _)⟩
  · simp [countDispatch]

theorem activePhase_bind (u : User) (s : NodeState) :
    countBind (activePhase u s).2.2 = 0 := by
  unfold activePhase cancelGoal
  split_ifs <;> simp [countBind, isBindEvent]

theorem pendingGoal_frame (u : User) (e : Env) (s : NodeState) :
    (pendingGoal u e s).2.1 = s ∧
    countBind (pendingGoal u e s).2.2 = 0 ∧
    countDispatch (pendingGoal u e s).2.2 ≤ 1 ∧
    ((pendingGoal u e s).1 = .ok .running → countDispatch (pendingGoal u e s).2.2 = 0) := by
  unfold pendingGoal
  split_ifs with h
  · exact ⟨rfl, by simp [countBind, isBindEvent], by simp [countDispatch, isDispatch],
      fun hc => absurd hc (CheckStatus_ne_ok_running _)⟩
  · exact ⟨rfl, by simp [countBind], by simp [countDispatch], fun _ => by simp [countDispatch]⟩

theorem acceptGoal_frame (u : User) (s : NodeState) (h : Option Nat) :
    (acceptGoal u s h).2.1 = received s h ∧
    countBind (acceptGoal u s h).2.2 = 0 ∧
    countDispatch (acceptGoal u s h).2.2 ≤ 1 ∧
    ((acceptGoal u s h).1 = .ok .running → countDispatch (acceptGoal u s h).2.2 = 0) := by
  unfold acceptGoal
  split_ifs with h1
  · exact ⟨rfl, by simp [countBind], by simp [countDispatch], fun _ => by simp [countDispatch]⟩
  · exact ⟨activePhase_state u _, activePhase_bind u _,
      (activePhase_dispatch u _).1, (activePhase_dispatch u _).2⟩

theorem received_frame (s : NodeState) (h : Option Nat) :
    (received s h).action_client_ = s.action_client_ ∧
    (received s h).prev_server_name_ = s.prev_server_name_ := by
  unfold received
  exact ⟨rfl, rfl⟩

theorem afterSpin_frame (u : User) (e : Env) (s : NodeState) :
    (afterSpin u e s).2.1.action_client_ = s.action_client_ ∧
    (afterSpin u e s).2.1.prev_server_name_ = s.prev_server_name_ ∧
    countBind (afterSpin u e s).2.2 = 0 ∧
    countDispatch (afterSpin u e s).2.2 ≤ 1 ∧
    ((afterSpin u e s).1 = .ok .running → countDispatch (afterSpin u e s).2.2 = 0) := by
  unfold afterSpin
  split_ifs with h1
  · cases ha : e.acceptance with
    | none =>
      rcases pendingGoal_frame u e s with ⟨hst, hb, hd, hr⟩
      exact ⟨by rw [hst], by rw [hst], hb, hd, hr⟩
    | some h =>
      rcases acceptGoal_frame u s h with ⟨hst, hb, hd, hr⟩
      rcases received_frame s h with ⟨ha1, ha2⟩
      exact ⟨by rw [hst, ha1], by rw [hst, ha2], hb, hd, hr⟩
  · exact ⟨by rw [activePhase_state], by rw [activePhase_state], activePhase_bind u s,
      (activePhase_dispatch u s).1, (activePhase_dispatch u s).2⟩

theorem tickRunning_frame (u : User) (e : Env) (s : NodeState) :
    (tickRunning u e s).2.1.action_client_ = s.action_client_ ∧
    (tickRunning u e s).2.1.prev_server_name_ = s.prev_server_name_ ∧
    countBind (tickRunning u e s).2.2 = 0 ∧
    countDispatch (tickRunning u e s).2.2 ≤ 1 ∧
    ((tickRunning u e s).1 = .ok .running → countDispatch (tickRunning u e s).2.2 = 0) := by
  unfold tickRunning
  rcases hsp : spinFeedbacks u e.feedbacks s with ⟨r, s1, tr1⟩
  have hspf := spinFeedbacks_frame u e.feedbacks s
  rw [hsp] at hspf
  rcases hspf with ⟨hf1, hf2, hf3, hf4⟩
  cases r with
  | error err =>
    exact ⟨hf1, hf2, hf4, by rw [hf3]; exact Nat.zero_le 1,
      fun hc => Except.noConfusion hc⟩
  | ok v =>
    rcases afterSpin_frame u e (applyResult e s1) with ⟨ha1, ha2, ha3, ha4, ha5⟩
    rcases applyResult_frame e s1 with ⟨hr1, hr2, _⟩
    refine ⟨by simpa [ha1, hr1] using hf1, by simpa [ha2, hr2] using hf2, ?_, ?_, ?_⟩
    · simp [countBind_append, hf4, ha3]
    · simp [countDispatch_append, hf3, ha4]
    · intro hc
      simp only at hc
      simp [countDispatch_append, hf3, ha5 hc]

theorem tickIdle_frame (u : User) (e : Env) (s : NodeState) :
    (tickIdle u e s).2.1.action_client_ = s.action_client_ ∧
    (tickIdle u e s).2.1.prev_server_name_ = s.prev_server_name_ ∧
    countBind (tickIdle u e s).2.2 = 0 ∧
    countDispatch (tickIdle u e s).2.2 ≤ 1 ∧
    ((tickIdle u e s).1 = .ok .running → countDispatch (tickIdle u e s).2.2 = 0) := by
  unfold tickIdle
  split_ifs with h
  · exact ⟨rfl, rfl, by simp [countBind, isBindEvent], by simp [countDispatch, isDispatch],
      fun hc => absurd hc (CheckStatus_ne_ok_running _)⟩
  · exact ⟨rfl, rfl, by simp [countBind, isBindEvent],
      by simp [countDispatch, isDispatch], fun _ => by simp [countDispatch, isDispatch]⟩

theorem tick_props (u : User) (e : Env) (s : NodeState) :
    countDispatch (tick u e s).2.2 ≤ 1 ∧
    ((tick u e s).1 = .ok .running → countDispatch (tick u e s).2.2 = 0) := by
  unfold tick
  rcases hrb : rebind e s with ⟨r, s1, tr1⟩
  have hrd := rebind_dispatch e s
  rw [hrb] at hrd
  simp only at hrd
  cases r with
  | error err => exact ⟨by rw [hrd]; exact Nat.zero_le 1, fun hc => Except.noConfusion hc⟩
  | ok v =>
    dsimp only
    split_ifs with h1 h2
    · rcases tickIdle_frame u e s1 with ⟨_, _, _, hd, hr⟩
      refine ⟨by simp [countDispatch_append, hrd, hd], ?_⟩
      intro hc
      simp only at hc
      simp [countDispatch_append, hrd, hr hc]
    · rcases tickRunning_frame u e s1 with ⟨_, _, _, hd, hr⟩
      refine ⟨by simp [countDispatch_append, hrd, hd], ?_⟩
      intro hc
      simp only at hc
      simp [countDispatch_append, hrd, hr hc]
    · exact ⟨by rw [hrd]; exact Nat.zero_le 1, fun _ => hrd⟩

theorem tickIdle_client (u : User) (e : Env) (s : NodeState) :
    (tickIdle u e s).2.1.action_client_ = s.action_client_ :=
  (tickIdle_frame u e s).1

theorem tickIdle_prev (u : User) (e : Env) (s : NodeState) :
    (tickIdle u e s).2.1.prev_server_name_ = s.prev_server_name_ :=
  (tickIdle_frame u e s).2.1

theorem tickRunning_client (u : User) (e : Env) (s : NodeState) :
    (tickRunning u e s).2.1.action_client_ = s.action_client_ :=
  (tickRunning_frame u e s).1

theorem tickRunning_prev (u : User) (e : Env) (s : NodeState) :
    (tickRunning u e s).2.1.prev_server_name_ = s.prev_server_name_ :=
  (tickRunning_frame u e s).2.1

theorem tickRunning_bind (u : User) (e : Env) (s : NodeState) :
    countBind (tickRunning u e s).2.2 = 0 :=
  (tickRunning_frame u e s).2.2.1

/-! ## Shared concrete scenarios -/

/-- A user whose feedback callback requests an abort by returning FAILURE. -/
def uFeedbackAbort : User := { uDflt with onFeeback := fun _ => .failure }

/-- An environment in which the goal is accepted (handle 1) and one feedback
event (payload 5) is delivered in the same poll interval. -/
def envAccept : Env := { env0 with acceptance := some (some 1), feedbacks := [5] }

/-- A node in the middle of an activation: RUNNING, goal accepted with
handle 1, last feedback verdict RUNNING. -/
def sActive : NodeState :=
  { mkStatic "srv" 1000 with
      status := .running, goal_received_ := true,
      goal_handle_ := some 1, on_feedback_state_change_ := .running }

/-- The node state right after the first poll of an activation: RUNNING,
goal submitted, acceptance not yet observed. -/
def sAfterFirstTick : NodeState := (tick uDflt env0 (mkStatic "srv" 1000)).2.1

/-! ## Claim C1 -/

/-- Claim C1: the spec says a failed bind-time reachability probe is
reported through `onFailure(ServerUnreachable)` and no goal submission is
attempted.  The code contradicts this: `tick()` discards the boolean
returned by `createClient`, so after a failed probe (`probe "srv" false` in
the trace) the goal is still submitted (`sendGoal` in the trace), no
`onFailure`/`onResultReceived` call happens (`countDispatch = 0`) and the
poll reports RUNNING.  `SERVER_UNREACHABLE` is never passed to `onFailure`
anywhere in the header. -/
theorem C1_probe_failure_still_submits :
    (tick uDflt { env0 with probe_ok := false } (mkDynamic 1000)).2.2 =
      [.clientCreated "srv" 0, .probe "srv" false, .sendGoal] ∧
    (tick uDflt { env0 with probe_ok := false } (mkDynamic 1000)).1 = .ok .running ∧
    countDispatch (tick uDflt { env0 with probe_ok := false } (mkDynamic 1000)).2.2 = 0 := by
  decide

/-! ## Claim C2 -/

/-- Claim C2, counterexample to "never neither": an activation in which the
feedback callback returns FAILURE terminates (the second poll returns
FAILURE, via cancellation and the direct return of the feedback verdict)
with zero invocations of `onResultReceived` or `onFailure`. -/
theorem C2_neither_callback_counterexample :
    (runActivation uFeedbackAbort [env0, envAccept] (mkStatic "srv" 1000)).2.2 =
      .ok .failure ∧
    countDispatch
      (runActivation uFeedbackAbort [env0, envAccept] (mkStatic "srv" 1000)).2.1 = 0 := by
  decide

/-- Claim C2 as amended: over any activation (any tick sequence from any
state), at most one of `onResultReceived`/`onFailure` is invoked — never
both — and while every poll still reports RUNNING none has been invoked;
but an activation may also end with neither (feedback-driven abort, halt),
so "never neither" does not hold. -/
theorem C2_at_most_one_dispatch (u : User) (es : List Env) (s : NodeState) :
    countDispatch (runActivation u es s).2.1 ≤ 1 ∧
    ((runActivation u es s).2.2 = .ok .running →
      countDispatch (runActivation u es s).2.1 = 0) := by
  induction es generalizing s with
  | nil => simp [runActivation, countDispatch]
  | cons e es ih =>
    by_cases h : (tick u e s).1 = .ok .running
    · have h0 := (tick_props u e s).2 h
      rcases ih (tick u e s).2.1 with ⟨ih1, ih2⟩
      constructor
      · simp only [runActivation, if_pos h]
        rw [countDispatch_append, h0, Nat.zero_add]
        exact ih1
      · intro hr
        simp only [runActivation, if_pos h] at hr ⊢
        rw [countDispatch_append, h0, Nat.zero_add]
        exact ih2 hr
    · constructor
      · simp only [runActivation, if_neg h]
        exact (tick_props u e s).1
      · intro hr
        simp only [runActivation, if_neg h] at hr
        exact absurd hr h

theorem C2_at_most_one_dispatch_witness :
    countDispatch (runActivation uDflt [env0] (mkStatic "srv" 1000)).2.1 = 0 :=
  (C2_at_most_one_dispatch uDflt [env0] (mkStatic "srv" 1000)).2 (by decide)

/-! ## Claim C10 -/

/-- Claim C10: calling `halt()` while the node is RUNNING with the goal
acceptance not yet observed (`goal_received_` false and the goal handle
still null, as on a first activation) makes `cancelGoal` pass the null
goal handle straight to `async_cancel_goal`; `halt` establishes nothing
about the handle before calling `cancelGoal`. -/
theorem C10_halt_null_handle (s : NodeState)
    (hs : s.status = .running) (hg : s.goal_received_ = false)
    (hh : s.goal_handle_ = none) :
    halt s = (s, [Event.asyncCancelGoal none]) := by
  simp [halt, hs, cancelGoal, hh]

theorem C10_halt_null_handle_witness :
    halt sAfterFirstTick = (sAfterFirstTick, [Event.asyncCancelGoal none]) :=
  C10_halt_null_handle sAfterFirstTick (by decide) (by decide) (by decide)

/-! ## Claim C3 -/

/-- Environment for the C3 witness: one feedback event and a SUCCEEDED
result arriving in the same poll interval. -/
def envC3 : Env :=
  { env0 with feedbacks := [5],
              result_arrival := some { code := .SUCCEEDED, payload := 2 } }

/-- Claim C3: within a single poll of an active goal, a feedback callback
verdict other than RUNNING is honored before any terminal result that
arrived in the same interval: the poll issues a cancellation request
(`asyncCancelGoal` with the current handle), returns the feedback verdict
itself, and dispatches neither `onResultReceived` nor `onFailure` even
though a terminal result is sitting in `result_`. -/
theorem C3_feedback_abort_priority (u : User) (e : Env) (s : NodeState) (c : Client)
    (f : Nat) (r : WrappedResult)
    (hs : s.status = .running) (hc : s.action_client_ = some c)
    (hg : s.goal_received_ = true)
    (hf : e.feedbacks = [f])
    (hret1 : u.onFeeback f ≠ .running) (hret2 : u.onFeeback f ≠ .idle)
    (hr : e.result_arrival = some r) (hrc : r.code ≠ .UNKNOWN) :
    (tick u e s).1 = .ok (u.onFeeback f) ∧
    Event.asyncCancelGoal s.goal_handle_ ∈ (tick u e s).2.2 ∧
    countDispatch (tick u e s).2.2 = 0 := by
  simp [tick, rebind, hc, hs, tickRunning, spinFeedbacks, hf, hret2, applyResult, hr,
        afterSpin, hg, activePhase, hret1, cancelGoal, countDispatch, isDispatch]

theorem C3_feedback_abort_priority_witness :
    (tick uFeedbackAbort envC3 sActive).1 = .ok (uFeedbackAbort.onFeeback 5) ∧
    Event.asyncCancelGoal sActive.goal_handle_ ∈ (tick uFeedbackAbort envC3 sActive).2.2 ∧
    countDispatch (tick uFeedbackAbort envC3 sActive).2.2 = 0 :=
  C3_feedback_abort_priority uFeedbackAbort envC3 sActive
    { server_name := "srv", id := 0 } 5 { code := .SUCCEEDED, payload := 2 }
    (by decide) (by decide) (by decide) (by decide) (by decide) (by decide)
    (by decide) (by decide)

/-! ## Claim C4 -/

/-- Claim C4: while awaiting acceptance (goal not received, goal future not
completed), a poll whose clock reading strictly exceeds the submission time
plus `server_timeout_` resolves through `onFailure(SEND_GOAL_TIMEOUT)`
(checked by `CheckStatus`); at or under the boundary (elapsed ≤ timeout,
including elapsed = timeout exactly) it reports RUNNING — the outcome is
decided by the strict comparison on the monotonic clock reading. -/
theorem C4_send_goal_timeout (u : User) (e : Env) (s : NodeState) (c : Client)
    (hs : s.status = .running) (hc : s.action_client_ = some c)
    (hg : s.goal_received_ = false) (ha : e.acceptance = none)
    (hf : e.feedbacks = []) :
    (e.now - s.time_goal_sent_ > s.server_timeout_ →
      (tick u e s).1 = CheckStatus (u.onFailure .SEND_GOAL_TIMEOUT) ∧
      Event.onFailureCalled .SEND_GOAL_TIMEOUT (u.onFailure .SEND_GOAL_TIMEOUT)
        ∈ (tick u e s).2.2) ∧
    (e.now - s.time_goal_sent_ ≤ s.server_timeout_ →
      (tick u e s).1 = .ok .running) := by
  constructor
  · intro hlt
    rcases hra : e.result_arrival with _ | r <;>
      simp [tick, rebind, hc, hs, tickRunning, spinFeedbacks, hf, applyResult, hra,
            afterSpin, hg, ha, pendingGoal, hlt]
  · intro hle
    have hnlt : ¬ e.now - s.time_goal_sent_ > s.server_timeout_ := not_lt.mpr hle
    rcases hra : e.result_arrival with _ | r <;>
      simp [tick, rebind, hc, hs, tickRunning, spinFeedbacks, hf, applyResult, hra,
            afterSpin, hg, ha, pendingGoal, hnlt]

/-- Environment for the C4 witness, late poll: clock at 1500 against a
submission at 0 with timeout 1000. -/
def envLate : Env := { env0 with now := 1500 }

/-- Environment for the C4 witness, early poll: clock at 900. -/
def envEarly : Env := { env0 with now := 900 }

theorem C4_send_goal_timeout_witness :
    ((1500 : Int) - sAfterFirstTick.time_goal_sent_ > sAfterFirstTick.server_timeout_ ∧
      (tick uDflt envLate sAfterFirstTick).1 =
        CheckStatus (uDflt.onFailure .SEND_GOAL_TIMEOUT)) ∧
    (tick uDflt envEarly sAfterFirstTick).1 = .ok .running :=
  ⟨⟨by decide,
    ((C4_send_goal_timeout uDflt envLate sAfterFirstTick
        { server_name := "srv", id := 0 } (by decide) (by decide) (by decide)
        (by decide) (by decide)).1 (by decide)).1⟩,
   (C4_send_goal_timeout uDflt envEarly sAfterFirstTick
        { server_name := "srv", id := 0 } (by decide) (by decide) (by decide)
        (by decide) (by decide)).2 (by decide)⟩

/-! ## Claim C5 -/

/-- Environment for the C5 witness: the user's `setGoal` declines. -/
def envDecline : Env := { env0 with set_goal_ok := false }

/-- Claim C5: when the goal-construction callback `setGoal` declines
(returns false), the very first poll of the activation resolves through
`onFailure(INVALID_GOAL)` (checked by `CheckStatus`) and no goal submission
(`sendGoal`) ever reaches the transport in that poll — the poll is
terminal, so no submission happens for the activation at all. -/
theorem C5_invalid_goal_no_submission (u : User) (e : Env) (s : NodeState) (c : Client)
    (hs : s.status = .idle) (hc : s.action_client_ = some c)
    (hm : s.server_name_may_change_ = false) (hsg : e.set_goal_ok = false) :
    (tick u e s).1 = CheckStatus (u.onFailure .INVALID_GOAL) ∧
    Event.sendGoal ∉ (tick u e s).2.2 ∧
    Event.onFailureCalled .INVALID_GOAL (u.onFailure .INVALID_GOAL)
      ∈ (tick u e s).2.2 := by
  simp [tick, rebind, hc, hs, hm, tickIdle, hsg]

theorem C5_invalid_goal_no_submission_witness :
    (tick uDflt envDecline (mkStatic "srv" 1000)).1 =
      CheckStatus (uDflt.onFailure .INVALID_GOAL) ∧
    Event.sendGoal ∉ (tick uDflt envDecline (mkStatic "srv" 1000)).2.2 ∧
    Event.onFailureCalled .INVALID_GOAL (uDflt.onFailure .INVALID_GOAL)
      ∈ (tick uDflt envDecline (mkStatic "srv" 1000)).2.2 :=
  C5_invalid_goal_no_submission uDflt envDecline
    (mkStatic "srv" 1000) { server_name := "srv", id := 0 }
    (by decide) (by decide) (by decide) (by decide)

/-! ## Claim C6 -/

/-- Environment for the C6 witness: an ABORTED result arrives. -/
def envAborted : Env :=
  { env0 with result_arrival := some { code := .ABORTED, payload := 0 } }

/-- Claim C6: once a result event has arrived for the active goal (and no
feedback-driven abort is pending), the poll dispatches on its code:
ABORTED resolves through `onFailure(ACTION_ABORTED)`, CANCELED through
`onFailure(ACTION_CANCELLED)`, SUCCEEDED through `onResultReceived`
(each checked by `CheckStatus`); while no result has arrived the poll
reports RUNNING. -/
theorem C6_result_dispatch (u : User) (e : Env) (s : NodeState) (c : Client)
    (r : WrappedResult)
    (hs : s.status = .running) (hc : s.action_client_ = some c)
    (hg : s.goal_received_ = true) (hfb : s.on_feedback_state_change_ = .running)
    (hf : e.feedbacks = []) :
    (e.result_arrival = some r →
      ((r.code = .ABORTED →
         (tick u e s).1 = CheckStatus (u.onFailure .ACTION_ABORTED)) ∧
       (r.code = .CANCELED →
         (tick u e s).1 = CheckStatus (u.onFailure .ACTION_CANCELLED)) ∧
       (r.code = .SUCCEEDED →
         (tick u e s).1 = CheckStatus (u.onResultReceived r)))) ∧
    (e.result_arrival = none → s.result_.code = .UNKNOWN →
      (tick u e s).1 = .ok .running) := by
  constructor
  · intro hra
    refine ⟨?_, ?_, ?_⟩ <;> intro hcode <;>
      simp [tick, rebind, hc, hs, tickRunning, spinFeedbacks, hf, applyResult, hra,
            afterSpin, hg, activePhase, hfb, hcode]
  · intro hra huk
    simp [tick, rebind, hc, hs, tickRunning, spinFeedbacks, hf, applyResult, hra,
          afterSpin, hg, activePhase, hfb, huk]

theorem C6_result_dispatch_witness :
    (tick uDflt envAborted sActive).1 = CheckStatus (uDflt.onFailure .ACTION_ABORTED) ∧
    (tick uDflt env0 sActive).1 = .ok .running :=
  ⟨((C6_result_dispatch uDflt envAborted sActive
      { server_name := "srv", id := 0 } { code := .ABORTED, payload := 0 }
      (by decide) (by decide) (by decide) (by decide) (by decide)).1
        (by decide)).1 (by decide),
   (C6_result_dispatch uDflt env0 sActive { server_name := "srv", id := 0 }
      { code := .ABORTED, payload := 0 }
      (by decide) (by decide) (by decide) (by decide) (by decide)).2
        (by decide) (by decide)⟩

/-! ## Claim C7 -/

/-- A user whose feedback callback returns SKIPPED. -/
def uSkip : User := { uDflt with onFeeback := fun _ => .skipped }

/-- Environment delivering a single feedback event (payload 7). -/
def envFb7 : Env := { env0 with feedbacks := [7] }

/-- Claim C7, counterexample: the feedback callback returns SKIPPED — a
value that is neither SUCCESS nor FAILURE — and the poll returns SKIPPED
as its outcome instead of raising an exception: the direct
`return on_feedback_state_change_` of line 373 bypasses `CheckStatus`. -/
theorem C7_skipped_feedback_counterexample :
    (tick uSkip envFb7 sActive).1 = .ok .skipped ∧
    NodeStatus.skipped ≠ .success ∧ NodeStatus.skipped ≠ .failure := by
  decide

/-- Claim C7 as amended: the result-path callbacks (`onResultReceived`,
`onFailure`) are indeed checked — a return value that is not exactly
SUCCESS or FAILURE raises a logic error instead of becoming the poll
outcome; the feedback callback is checked only against IDLE (IDLE raises
at delivery time), while any other non-RUNNING value, e.g. SKIPPED, is
returned directly as the poll outcome without a check. -/
theorem C7_callback_value_check (u : User) (s : NodeState) (c : Client)
    (r : WrappedResult) (f : Nat)
    (hs : s.status = .running) (hc : s.action_client_ = some c)
    (hg : s.goal_received_ = true) :
    (∀ e : Env, e.feedbacks = [] → s.on_feedback_state_change_ = .running →
      e.result_arrival = some r → r.code = .SUCCEEDED →
      u.onResultReceived r ≠ .success → u.onResultReceived r ≠ .failure →
      (tick u e s).1 = .error .logicErrorCallbackStatus) ∧
    (∀ e : Env, e.feedbacks = [f] → u.onFeeback f = .skipped →
      (tick u e s).1 = .ok .skipped) ∧
    (∀ e : Env, e.feedbacks = [f] → u.onFeeback f = .idle →
      (tick u e s).1 = .error .logicErrorFeedbackIdle) := by
  refine ⟨?_, ?_, ?_⟩
  · intro e hf hfb hra hcode hb1 hb2
    simp [tick, rebind, hc, hs, tickRunning, spinFeedbacks, hf, applyResult, hra,
          afterSpin, hg, activePhase, hfb, hcode, CheckStatus, hb1, hb2]
  · intro e hf hret
    rcases hra : e.result_arrival with _ | r2 <;>
      simp [tick, rebind, hc, hs, tickRunning, spinFeedbacks, hf, hret, applyResult, hra,
            afterSpin, hg, activePhase, cancelGoal]
  · intro e hf hret
    simp [tick, rebind, hc, hs, tickRunning, spinFeedbacks, hf, hret]

/-- A user whose result callback violates the contract by returning
RUNNING. -/
def uBadResult : User := { uDflt with onResultReceived := fun _ => .running }

/-- Environment for the C7 witness: a SUCCEEDED result arrives. -/
def envSucceeded : Env :=
  { env0 with result_arrival := some { code := .SUCCEEDED, payload := 4 } }

theorem C7_callback_value_check_witness :
    (tick uBadResult envSucceeded sActive).1 = .error .logicErrorCallbackStatus :=
  (C7_callback_value_check uBadResult sActive { server_name := "srv", id := 0 }
      { code := .SUCCEEDED, payload := 4 } 0
      (by decide) (by decide) (by decide)).1 envSucceeded
    (by decide) (by decide) (by decide) (by decide) (by decide) (by decide)

/-! ## Claim C8 -/

/-- Environment in which the goal-response future completes with a null
handle: the server rejected the goal. -/
def envRejected : Env := { env0 with acceptance := some none }

/-- Environment in which the goal-response future completes with a valid
handle 1: the server accepted the goal. -/
def envAccepted1 : Env := { env0 with acceptance := some (some 1) }

/-- Claim C8: a goal rejection (completed goal future holding a null
handle) is treated as a fatal protocol violation — `tick` raises
`std::runtime_error` and no `onFailure`/`onResultReceived` routing happens
(in particular `GOAL_REJECTED_BY_SERVER` is never reported); an accepted
goal transitions the node to the active phase (`goal_received_` set, the
goal handle stored). -/
theorem C8_goal_rejected_fatal (u : User) (e : Env) (s : NodeState) (c : Client)
    (hs : s.status = .running) (hc : s.action_client_ = some c)
    (hg : s.goal_received_ = false) (hf : e.feedbacks = []) :
    (e.acceptance = some none →
      (tick u e s).1 = .error .runtimeErrorGoalRejected ∧
      countDispatch (tick u e s).2.2 = 0) ∧
    (∀ gh : Nat, e.acceptance = some (some gh) →
      (tick u e s).2.1.goal_received_ = true ∧
      (tick u e s).2.1.goal_handle_ = some gh) := by
  constructor
  · intro ha
    rcases hra : e.result_arrival with _ | r <;>
      simp [tick, rebind, hc, hs, tickRunning, spinFeedbacks, hf, applyResult, hra,
            afterSpin, hg, ha, acceptGoal, received, countDispatch]
  · intro gh ha
    rcases hra : e.result_arrival with _ | r <;>
      simp [tick, rebind, hc, hs, tickRunning, spinFeedbacks, hf, applyResult, hra,
            afterSpin, hg, ha, acceptGoal, received, activePhase_state]

theorem C8_goal_rejected_fatal_witness :
    ((tick uDflt envRejected sAfterFirstTick).1 = .error .runtimeErrorGoalRejected ∧
      countDispatch (tick uDflt envRejected sAfterFirstTick).2.2 = 0) ∧
    ((tick uDflt envAccepted1 sAfterFirstTick).2.1.goal_received_ = true ∧
      (tick uDflt envAccepted1 sAfterFirstTick).2.1.goal_handle_ = some 1) :=
  ⟨(C8_goal_rejected_fatal uDflt envRejected sAfterFirstTick
      { server_name := "srv", id := 0 }
      (by decide) (by decide) (by decide) (by decide)).1 (by decide),
   (C8_goal_rejected_fatal uDflt envAccepted1 sAfterFirstTick
      { server_name := "srv", id := 0 }
      (by decide) (by decide) (by decide) (by decide)).2 1 (by decide)⟩

/-! ## Claim C9 -/

/-- Claim C9: client rebinding happens only in IDLE.  While the node is
RUNNING with a live client, a poll never replaces the client, never touches
`prev_server_name_` and performs no client creation or probe, whatever the
`server_name` port now reads; in IDLE with a blackboard-backed name
(`server_name_may_change_`), a port value differing from the previously
bound name makes the poll create a fresh client (next creation counter) for
the new name and re-run the reachability probe, updating
`prev_server_name_`. -/
theorem C9_rebind_only_idle (u : User) (e : Env) (s : NodeState) (c : Client) :
    (s.status = .running → s.action_client_ = some c →
      (tick u e s).2.1.action_client_ = some c ∧
      (tick u e s).2.1.prev_server_name_ = s.prev_server_name_ ∧
      countBind (tick u e s).2.2 = 0) ∧
    (s.status = .idle → s.server_name_may_change_ = true →
      s.prev_server_name_ ≠ e.port_server_name → e.port_server_name ≠ "" →
      Event.clientCreated e.port_server_name s.clients_created ∈ (tick u e s).2.2 ∧
      Event.probe e.port_server_name e.probe_ok ∈ (tick u e s).2.2 ∧
      (tick u e s).2.1.prev_server_name_ = e.port_server_name ∧
      (tick u e s).2.1.action_client_ =
        some { server_name := e.port_server_name, id := s.clients_created }) := by
  constructor
  · intro hs hc
    simp [tick, rebind, hc, hs, tickRunning_client, tickRunning_prev, tickRunning_bind]
  · intro hs hm hne hne2
    simp [tick, rebind, hs, hm, hne, createClient, hne2, Except.map,
          tickIdle_client, tickIdle_prev]

/-- Node state for the C9 witness: bound to "srv" while IDLE, with a
blackboard-backed server name. -/
def sIdleDyn : NodeState := { mkStatic "srv" 1000 with server_name_may_change_ := true }

/-- Environment for the C9 witness: the port now resolves to "other". -/
def envOther : Env := { env0 with port_server_name := "other" }

theorem C9_rebind_only_idle_witness :
    Event.clientCreated "other" 1 ∈ (tick uDflt envOther sIdleDyn).2.2 ∧
    Event.probe "other" true ∈ (tick uDflt envOther sIdleDyn).2.2 ∧
    (tick uDflt envOther sIdleDyn).2.1.prev_server_name_ = "other" ∧
    (tick uDflt envOther sIdleDyn).2.1.action_client_ =
      some { server_name := "other", id := 1 } :=
  (C9_rebind_only_idle uDflt envOther sIdleDyn { server_name := "srv", id := 0 }).2
    (by decide) (by decide) (by decide) (by decide)

end BTRos
